import Mathlib

/-!
Verification of the RAG-based chatbot repository
(src/chatbot.py, src/data_loader.py, src/rag_engine.py).

Shallow embedding conventions:
* Python strings are modelled as `List Char` (`Str`); `str.lower()` is
  `Char.toLower` per character (faithful on the ASCII text the program
  compares against), `needle in hay` is substring containment
  (`containsSub`), and `s[:200]` is `List.take 200`.
* Exceptions are modelled by an error type `PyErr` whose constructors
  mirror the Python exception classes raised by the code, carrying the
  exact message strings from the source.  Stateful methods are modelled
  as functions `State → Except PyErr α × State`, returning the state of
  the object after the call (a `raise` placed before any field mutation
  leaves the state argument untouched, exactly as in Python).
* External collaborators (the file-format loaders, the Chroma vector
  store, and the conversational retrieval chain with its LLM) are
  modelled as oracle parameters: arbitrary functions that may fail with
  a `PyErr`.  Theorems quantify over the oracles.
* Chunk parameters are modelled as `Nat` (the program only ever uses
  non-negative sizes).
-/

namespace RB

/-- Python strings as character lists. -/
abbrev Str := List Char

/-- Coerce a Lean string literal to the `Str` model. -/
def strL (s : String) : Str := s.toList

/-- Python `str.lower()` (character-wise ASCII lowering). -/
def lowerStr (s : Str) : Str := s.map Char.toLower

/-- Python `needle in hay` substring containment on strings. -/
def containsSub (needle hay : Str) : Bool :=
  match hay with
  | [] => needle.isEmpty
  | _ :: t => needle.isPrefixOf hay || containsSub needle t

/-- Python exceptions raised by the program, with their message strings. -/
inductive PyErr where
  | valueError (msg : Str)
  | fileNotFoundError (msg : Str)
  | providerError (msg : Str)
  deriving DecidableEq, Repr

/-- The spec's IndexNotInitializedError: the exact exception raised by
`RAGEngine.query` when no QA chain exists (rag_engine.py line 145). -/
def IndexNotInitializedError : PyErr :=
  .valueError (strL "QA chain not initialized. Please create vector store first.")

/-- The spec's EmptyInputError: the exact exception raised by
`RAGEngine.create_vector_store` on an empty document list
(rag_engine.py line 81). -/
def EmptyInputError : PyErr :=
  .valueError (strL "No documents provided for vector store creation")

/-- The spec's NotFoundError for a missing file
(data_loader.py line 60). -/
def NotFoundError (path : Str) : PyErr :=
  .fileNotFoundError (strL "File not found: " ++ path)

/-- The spec's NotFoundError for a missing directory
(data_loader.py line 96). -/
def DirNotFoundError (path : Str) : PyErr :=
  .fileNotFoundError (strL "Directory not found: " ++ path)

/-- The spec's UnsupportedFormatError, naming the offending extension
(data_loader.py line 64). -/
def UnsupportedFormatError (ext : Str) : PyErr :=
  .valueError (strL "Unsupported file extension: " ++ ext)

/-- A langchain `Document`: page content plus a metadata mapping. -/
structure Document where
  page_content : Str
  metadata : List (Str × Str)
  deriving DecidableEq, Repr

/-- A source entry as built by `RAGEngine.query` (a dict with `content`
and `metadata` keys, rag_engine.py lines 154-160). -/
structure SourceDoc where
  content : Str
  metadata : List (Str × Str)
  deriving DecidableEq, Repr

/-- A conversation entry as built by `Chatbot.ask`
(chatbot.py lines 115-120). -/
structure ConversationEntry where
  timestamp : Str
  question : Str
  answer : Str
  sources : List SourceDoc
  deriving DecidableEq, Repr

/-- Modelled from the spec: the `ConfigurationError` raised when the chunk
parameters are invalid.  The validation lives in langchain's text-splitter
constructor (called from `DataLoader.__init__`, data_loader.py lines 42-46),
whose code is not part of this repository; per the spec (§4.1) construction
"fails with `ConfigurationError` if `chunk_overlap >= chunk_size`". -/
def ConfigurationError : PyErr :=
  .valueError (strL "chunk_overlap must be smaller than chunk_size")

/-- Modelled from the spec: langchain's `RecursiveCharacterTextSplitter.split_text`
(the Chunker), whose code is not part of this repository.  Per the spec it
"splits raw document text into overlapping fixed-size segments" (§2),
deterministically, where "a document shorter than `chunk_size` yields exactly
one chunk equal to the whole document" (§4.1): each chunk is at most
`chunk_size` characters and consecutive chunks overlap by `chunk_overlap`
characters.  The spec's within-window preference for semantic boundaries
(paragraph → sentence → word → character) is abstracted to the hard
character cut; no verified claim depends on where inside a window the cut
falls. -/
def splitText (chunk_size chunk_overlap : Nat) (text : Str) : List Str :=
  if text.length ≤ chunk_size then [text]
  else
    text.take chunk_size ::
      splitText chunk_size chunk_overlap
        (text.drop (max 1 (chunk_size - chunk_overlap)))
termination_by text.length
decreasing_by
  simp only [List.length_drop]
  omega

/-- Modelled from the spec: langchain's `TextSplitter.split_documents`, not
part of this repository — splits each document's text and copies its
metadata onto every resulting chunk ("carries inherited metadata", spec §3). -/
def splitDocuments (chunk_size chunk_overlap : Nat) (docs : List Document) :
    List Document :=
  (docs.map (fun d =>
    (splitText chunk_size chunk_overlap d.page_content).map
      (fun t => { page_content := t, metadata := d.metadata }))).flatten

/-- The `DataLoader` object state (data_loader.py lines 22-46); the text
splitter shares the stored chunk parameters. -/
structure DataLoader where
  chunk_size : Nat
  chunk_overlap : Nat
  supported_extensions : List Str
  deriving Repr

/-- `DataLoader.__init__` (data_loader.py lines 25-46): stores the chunk
parameters and the supported-extension list (defaulting to
`[".pdf", ".docx", ".txt"]`), and constructs the text splitter — whose
spec-modelled validation rejects `chunk_overlap >= chunk_size`. -/
def DataLoader.init (chunk_size chunk_overlap : Nat)
    (supported_extensions : Option (List Str)) : Except PyErr DataLoader :=
  if chunk_size ≤ chunk_overlap then .error ConfigurationError
  else .ok { chunk_size, chunk_overlap,
             supported_extensions :=
               supported_extensions.getD [ strL ".pdf", strL ".docx", strL ".txt" ] }

/-- The file-system view consulted by the `pathlib.Path` checks: which path
strings name existing regular files and which name existing directories. -/
structure FS where
  isFile : Str → Bool
  isDir : Str → Bool

/-- `pathlib.Path.exists()`: the path names an existing file or directory. -/
def FS.pathExists (fs : FS) (p : Str) : Bool := fs.isFile p || fs.isDir p

/-- The final path component (`pathlib.PurePath.name`): the characters after
the last `/`. -/
def pathName (p : Str) : Str :=
  p.foldl (fun acc c => if c = '/' then [] else acc ++ [c]) []

/-- Index of the last `.` in a name (Python `str.rfind`), if any. -/
def rfindDot (name : Str) : Option Nat :=
  ((List.range name.length).filter
    (fun i => name.get? i == some '.')).getLast?

/-- `pathlib.PurePath.suffix`: the extension of the final component from its
last dot; empty when the name has no dot, when the only dot is leading, or
when the name ends with the dot (CPython: `name[i:]` when
`0 < i < len(name) - 1`). -/
def pathSuffix (p : Str) : Str :=
  let name := pathName p
  match rfindDot name with
  | none => []
  | some i => if 0 < i ∧ i < name.length - 1 then name.drop i else []

/-- The external single-file format loaders (`PyPDFLoader`, `Docx2txtLoader`,
`TextLoader` — their `.load()` call), as an oracle from path to pages. -/
abbrev ReadOracle := Str → Except PyErr (List Document)

/-- The external per-extension `DirectoryLoader.load()` call, as an oracle
from directory path and extension to documents. -/
abbrev DirOracle := Str → Str → Except PyErr (List Document)

/-- `DataLoader.load_document` (data_loader.py lines 48-82): missing path →
`FileNotFoundError`; unsupported (lower-cased) extension → `ValueError`
naming the extension; otherwise dispatch to the format loader and split.
Exceptions from the loader are logged and re-raised unmodified. -/
def DataLoader.load_document (fs : FS) (readDoc : ReadOracle) (dl : DataLoader)
    (file_path : Str) : Except PyErr (List Document) :=
  if fs.pathExists file_path = false then .error (NotFoundError file_path)
  else
    let extension := lowerStr (pathSuffix file_path)
    if dl.supported_extensions.contains extension = false then
      .error (UnsupportedFormatError extension)
    else if extension = strL ".pdf" ∨ extension = strL ".docx" ∨
        extension = strL ".txt" then
      match readDoc file_path with
      | .error e => .error e
      | .ok documents =>
        .ok (splitDocuments dl.chunk_size dl.chunk_overlap documents)
    else .error (UnsupportedFormatError extension)

/-- `DataLoader.load_directory` (data_loader.py lines 84-120): missing path →
`FileNotFoundError`; otherwise each supported extension is loaded through
`DirectoryLoader`, a failing extension being logged and skipped; an empty
harvest returns `[]`, otherwise the documents are split. -/
def DataLoader.load_directory (fs : FS) (dirLoad : DirOracle) (dl : DataLoader)
    (directory_path : Str) : Except PyErr (List Document) :=
  if fs.pathExists directory_path = false then
    .error (DirNotFoundError directory_path)
  else
    let all_documents :=
      (dl.supported_extensions.map (fun ext =>
        match dirLoad directory_path ext with
        | .error _ => []
        | .ok documents => documents)).flatten
    if all_documents.isEmpty then .ok []
    else .ok (splitDocuments dl.chunk_size dl.chunk_overlap all_documents)

/-- `DataLoader.process_text` (data_loader.py lines 122-137): wrap the raw
text in a metadata-free `Document` and split it. -/
def DataLoader.process_text (dl : DataLoader) (text : Str) : List Document :=
  splitDocuments dl.chunk_size dl.chunk_overlap
    [{ page_content := text, metadata := [] }]

/-- The raw response of the conversational retrieval chain (answer text plus
the retrieved source documents). -/
structure ChainResponse where
  answer : Str
  source_documents : List Document
  deriving DecidableEq, Repr

/-- The external `Chroma.from_documents` call, as an oracle from the document
list to the resulting store (modelled by its documents). -/
abbrev ChromaOracle := List Document → Except PyErr (List Document)

/-- The external QA-chain invocation `self.qa_chain({"question": ...})`
(retrieval + LLM), as an oracle taking the question and the chain's buffer
memory and returning the response together with the updated memory. -/
abbrev ChainOracle := Str → List Str → Except PyErr (ChainResponse × List Str)

/-- The `RAGEngine` object state (rag_engine.py lines 23-70): the optional
vector store and QA chain start as `None`; the buffer memory starts empty.
The generation parameters (`model_name`, `temperature`,
`persist_directory`) only parametrize the external calls. -/
structure RAGEngine where
  model_name : Str
  persist_directory : Str
  vector_store : Option (List Document)
  qa_chain : Option Unit
  memory : List Str

/-- `RAGEngine.__init__` + `_initialize_components`
(rag_engine.py lines 26-70). -/
def RAGEngine.init (model_name persist_directory : Str) : RAGEngine :=
  { model_name, persist_directory,
    vector_store := none, qa_chain := none, memory := [] }

/-- `RAGEngine.create_vector_store` (rag_engine.py lines 72-96) followed by
`_create_qa_chain` (lines 98-132): an empty document list raises before any
mutation; otherwise the store returned by `Chroma.from_documents` is
assigned and a QA chain is created over it. -/
def RAGEngine.create_vector_store (chroma : ChromaOracle) (re : RAGEngine)
    (documents : List Document) : Except PyErr Unit × RAGEngine :=
  if documents.isEmpty then (.error EmptyInputError, re)
  else
    match chroma documents with
    | .error e => (.error e, re)
    | .ok vs =>
      let re1 := { re with vector_store := some vs }
      (.ok (), { re1 with qa_chain := some () })

/-- The result dictionary built by `RAGEngine.query`
(rag_engine.py lines 151-161). -/
structure QueryResult where
  answer : Str
  source_documents : List SourceDoc
  deriving DecidableEq, Repr

/-- `RAGEngine.query` (rag_engine.py lines 134-168): without a QA chain it
raises `ValueError("QA chain not initialized. ...")`; otherwise the chain is
invoked (updating its buffer memory) and the answer and source documents
are extracted; chain exceptions are logged and re-raised unmodified. -/
def RAGEngine.query (chain : ChainOracle) (re : RAGEngine) (question : Str) :
    Except PyErr QueryResult × RAGEngine :=
  if re.qa_chain.isNone then (.error IndexNotInitializedError, re)
  else
    match chain question re.memory with
    | .error e => (.error e, re)
    | .ok (response, mem) =>
      (.ok { answer := response.answer,
             source_documents := response.source_documents.map
               (fun doc => { content := doc.page_content,
                             metadata := doc.metadata }) },
       { re with memory := mem })

/-- `RAGEngine.clear_memory` (rag_engine.py lines 170-174): clears the
chain's buffer memory and nothing else. -/
def RAGEngine.clear_memory (re : RAGEngine) : RAGEngine :=
  { re with memory := [] }

/-- The `Chatbot` object state (chatbot.py lines 17-48). -/
structure Chatbot where
  data_loader : DataLoader
  rag_engine : RAGEngine
  conversation_history : List ConversationEntry

/-- `Chatbot.__init__` (chatbot.py lines 20-48): constructs the data loader
(which may reject the chunk parameters), a fresh RAG engine, and an empty
conversation history. -/
def Chatbot.init (model_name : Str) (chunk_size chunk_overlap : Nat)
    (persist_directory : Str) : Except PyErr Chatbot :=
  match DataLoader.init chunk_size chunk_overlap none with
  | .error e => .error e
  | .ok dl =>
    .ok { data_loader := dl,
          rag_engine := RAGEngine.init model_name persist_directory,
          conversation_history := [] }

/-- `Chatbot.load_documents` (chatbot.py lines 50-74): dispatches on
`is_file` / `is_dir`, raising `ValueError(f"Invalid path: {path}")` when
neither holds; non-empty loaded documents are fed to the vector store;
every exception is logged and re-raised unmodified. -/
def Chatbot.load_documents (fs : FS) (readDoc : ReadOracle) (dirLoad : DirOracle)
    (chroma : ChromaOracle) (cb : Chatbot) (path : Str) :
    Except PyErr Unit × Chatbot :=
  match (if fs.isFile path then
           DataLoader.load_document fs readDoc cb.data_loader path
         else if fs.isDir path then
           DataLoader.load_directory fs dirLoad cb.data_loader path
         else .error (.valueError (strL "Invalid path: " ++ path))) with
  | .error e => (.error e, cb)
  | .ok documents =>
    if documents.isEmpty then (.ok (), cb)
    else
      match RAGEngine.create_vector_store chroma cb.rag_engine documents with
      | (.error e, re) => (.error e, { cb with rag_engine := re })
      | (.ok _, re) => (.ok (), { cb with rag_engine := re })

/-- `Chatbot.process_text` (chatbot.py lines 76-93): chunk the raw text; a
non-empty chunk list is fed to the vector store. -/
def Chatbot.process_text (chroma : ChromaOracle) (cb : Chatbot) (text : Str) :
    Except PyErr Unit × Chatbot :=
  let documents := DataLoader.process_text cb.data_loader text
  if documents.isEmpty then (.ok (), cb)
  else
    match RAGEngine.create_vector_store chroma cb.rag_engine documents with
    | (.error e, re) => (.error e, { cb with rag_engine := re })
    | (.ok _, re) => (.ok (), { cb with rag_engine := re })

/-- The fixed creator keyword list (chatbot.py line 107). -/
def creator_keywords : List Str :=
  [ strL "who created you", strL "who is your creator", strL "your creator" ]

/-- The canned creator answer (chatbot.py line 109). -/
def creatorAnswer : Str := strL "I was created by Tarun Agarwal."

/-- `Chatbot.ask` (chatbot.py lines 95-130): creator-keyword routing on the
lower-cased question first; otherwise the RAG query; on success a
conversation entry is built, appended to the history and returned; any
exception is logged and re-raised unmodified. -/
def Chatbot.ask (chain : ChainOracle) (now : Str) (cb : Chatbot)
    (question : Str) : Except PyErr ConversationEntry × Chatbot :=
  if creator_keywords.any
      (fun keyword => containsSub keyword (lowerStr question)) then
    let conversation_entry : ConversationEntry :=
      { timestamp := now, question, answer := creatorAnswer, sources := [] }
    (.ok conversation_entry,
     { cb with conversation_history :=
         cb.conversation_history ++ [conversation_entry] })
  else
    match RAGEngine.query chain cb.rag_engine question with
    | (.error e, re) => (.error e, { cb with rag_engine := re })
    | (.ok response, re) =>
      let conversation_entry : ConversationEntry :=
        { timestamp := now, question,
          answer := response.answer, sources := response.source_documents }
      (.ok conversation_entry,
       { cb with rag_engine := re,
                 conversation_history :=
                   cb.conversation_history ++ [conversation_entry] })

/-- `Chatbot.get_conversation_history` (chatbot.py lines 132-139). -/
def Chatbot.get_conversation_history (cb : Chatbot) : List ConversationEntry :=
  cb.conversation_history

/-- `Chatbot.clear_conversation` (chatbot.py lines 141-145): resets the
conversation history and clears the engine's buffer memory. -/
def Chatbot.clear_conversation (cb : Chatbot) : Chatbot :=
  { cb with conversation_history := [],
            rag_engine := RAGEngine.clear_memory cb.rag_engine }

/-- The 80-character delimiter line written by `export_conversation`
(chatbot.py line 166). -/
def delimLine : Str := List.replicate 80 '='

/-- One source line `- {source['content'][:200]}...`
(chatbot.py line 165). -/
def sourceLine (source : SourceDoc) : Str :=
  strL "- " ++ source.content.take 200 ++ strL "..."

/-- The text written for one conversation entry by `export_conversation`
(chatbot.py lines 159-166). -/
def exportBlock (entry : ConversationEntry) : Str :=
  strL "Timestamp: " ++ entry.timestamp ++ [ '\n' ] ++
  strL "Question: " ++ entry.question ++ [ '\n' ] ++
  strL "Answer: " ++ entry.answer ++ [ '\n' ] ++
  strL "Sources:" ++ [ '\n' ] ++
  (entry.sources.map (fun source => sourceLine source ++ [ '\n' ])).flatten ++
  [ '\n' ] ++ delimLine ++ [ '\n', '\n' ]

/-- `Chatbot.export_conversation` (chatbot.py lines 147-172): the full text
written to the export file, one block per history entry in order (the
parent-directory creation and the write are external file-system effects). -/
def Chatbot.export_conversation (cb : Chatbot) : Str :=
  (cb.conversation_history.map exportBlock).flatten

/-! ### Lines of a text file

The exported file is analysed line by line: `linesOf` splits a character
list at every `'\n'` (the last element is the text after the final
newline), and the two counting functions below count the lines the spec's
export property talks about. -/

/-- Prepend a character to the first line of a line list. -/
def consHead (c : Char) : List Str → List Str
  | [] => [[c]]
  | l :: ls => (c :: l) :: ls

/-- The lines of a text, split at each newline character. -/
def linesOf : Str → List Str
  | [] => [[]]
  | c :: rest =>
    if c = '\n' then [] :: linesOf rest else consHead c (linesOf rest)

/-- Join a list of pieces, terminating each with a newline. -/
def segJoin (ps : List Str) : Str :=
  (ps.map (fun x => x ++ [ '\n' ])).flatten
/-- The fixed line prefix `Timestamp:` counted by the export property. -/
def tsLinePrefix : Str := strL "Timestamp:"

/-- The line starts with `Timestamp:`. -/
def tsPred (l : Str) : Bool := tsLinePrefix.isPrefixOf l

/-- The line is exactly the 80-character `=` delimiter. -/
def delimPred (l : Str) : Bool := l == delimLine

/-- Number of lines of a text that start with `Timestamp:`. -/
def countTimestampLines (f : Str) : Nat := (linesOf f).countP tsPred

/-- Number of lines of a text equal to the 80-character `=` delimiter. -/
def countDelimiterLines (f : Str) : Nat := (linesOf f).countP delimPred
/-- The newline-terminated pieces making up one export block. -/
def blockPieces (entry : ConversationEntry) : List Str :=
  [ strL "Timestamp: " ++ entry.timestamp,
    strL "Question: " ++ entry.question,
    strL "Answer: " ++ entry.answer,
    strL "Sources:" ] ++
  entry.sources.map sourceLine ++ [ [], delimLine, [] ]
/-- A line that inflates one of the two counted categories. -/
def offending (l : Str) : Bool := tsPred l || delimPred l
/-- The amended-claim hypothesis: within the entry, no line after the first
of the timestamp, question or answer text, and no line after the first of a
rendered source-preview line, itself starts with `Timestamp:` or equals the
80-character `=` delimiter line. -/
structure SafeEntry (entry : ConversationEntry) : Prop where
  tsSafe : ∀ l ∈ (linesOf entry.timestamp).tail, offending l = false
  questionSafe : ∀ l ∈ (linesOf entry.question).tail, offending l = false
  answerSafe : ∀ l ∈ (linesOf entry.answer).tail, offending l = false
  sourceSafe : ∀ src ∈ entry.sources,
    ∀ l ∈ (linesOf (sourceLine src)).tail, offending l = false

/-! ### Concrete instances used by witnesses and counterexamples -/

/-- A QA-chain oracle that always fails with a provider error. -/
def chainFail : ChainOracle := fun _ _ => .error (.providerError [])

/-- A QA-chain oracle that always answers `ok` with no sources, keeping the
memory unchanged. -/
def chainOk : ChainOracle :=
  fun _ mem => .ok ({ answer := strL "ok", source_documents := [] }, mem)

/-- A file loader oracle that always fails. -/
def readFail : ReadOracle := fun _ => .error (.providerError [])

/-- A directory loader oracle that always fails. -/
def dirFail : DirOracle := fun _ _ => .error (.providerError [])

/-- A vector-store oracle that always fails. -/
def chromaFail : ChromaOracle := fun _ => .error (.providerError [])

/-- A file system with no files and no directories. -/
def fsEmpty : FS := { isFile := fun _ => false, isDir := fun _ => false }

/-- A file system containing exactly the regular file `test.xyz`. -/
def fsXyz : FS :=
  { isFile := fun p => p == strL "test.xyz", isDir := fun _ => false }

/-- The default supported-extension list of `DataLoader.__init__`. -/
def defaultExtensions : List Str := [ strL ".pdf", strL ".docx", strL ".txt" ]

/-- The default data-loader configuration (chunk size 1000, overlap 200). -/
def dl0 : DataLoader :=
  { chunk_size := 1000, chunk_overlap := 200,
    supported_extensions := defaultExtensions }

/-- A freshly constructed chatbot with the default configuration: empty
history, no vector store, no QA chain. -/
def cb0 : Chatbot :=
  { data_loader := dl0,
    rag_engine := RAGEngine.init (strL "gpt-3.5-turbo-0125")
      (strL "./data/chroma_db"),
    conversation_history := [] }

/-- A chatbot whose vector store and QA chain have been created. -/
def cbReady : Chatbot :=
  { cb0 with rag_engine :=
      { cb0.rag_engine with vector_store := some [], qa_chain := some () } }

/-- A history entry whose question embeds a line starting `Timestamp:`. -/
def entryBad : ConversationEntry :=
  { timestamp := strL "t0",
    question := strL "x" ++ [ '\n' ] ++ strL "Timestamp: fake",
    answer := strL "a", sources := [] }

/-- A chatbot holding the single adversarial history entry. -/
def cbBad : Chatbot := { cb0 with conversation_history := [entryBad] }

/-- An ordinary single-line history entry with one source. -/
def entryGood : ConversationEntry :=
  { timestamp := strL "t0", question := strL "What is AI?",
    answer := strL "AI is a field of computer science.",
    sources := [ { content := strL "AI is a broad field.", metadata := [] } ] }

/-- A chatbot holding the single ordinary history entry. -/
def cbGood : Chatbot := { cb0 with conversation_history := [entryGood] }

/-- A text always has at least one (possibly empty) line. -/
theorem linesOf_ne_nil (s : Str) : linesOf s ≠ [] := by
  induction s with
  | nil => simp [linesOf]
  | cons c rest ih =>
    by_cases hc : c = '\n'
    · simp [linesOf, hc]
    · simp only [linesOf, if_neg hc]
      cases h : linesOf rest <;> simp [consHead]

theorem consHead_append (c : Char) (x y : List Str) (hx : x ≠ []) :
    consHead c (x ++ y) = consHead c x ++ y := by
  cases x with
  | nil => exact absurd rfl hx
  | cons l ls => simp [consHead]

/-- Splitting at a newline between two texts splits their lines. -/
theorem linesOf_append_newline (a b : Str) :
    linesOf (a ++ '\n' :: b) = linesOf a ++ linesOf b := by
  induction a with
  | nil => simp [linesOf]
  | cons c rest ih =>
    by_cases hc : c = '\n'
    · simp only [List.cons_append, linesOf, if_pos hc, List.append_eq, ih,
        List.nil_append]
    · simp only [List.cons_append, linesOf, if_neg hc, List.append_eq, ih]
      exact consHead_append c (linesOf rest) (linesOf b) (linesOf_ne_nil rest)

theorem linesOf_cons_nonl (c : Char) (hc : c ≠ '\n') (s : Str) :
    linesOf (c :: s) = (c :: (linesOf s).headI) :: (linesOf s).tail := by
  cases h : linesOf s with
  | nil => exact absurd h (linesOf_ne_nil s)
  | cons l ls => simp [linesOf, if_neg hc, h, consHead]

/-- Prepending a newline-free prefix extends the first line only. -/
theorem linesOf_prefix_nonl (pfx s : Str) (h : '\n' ∉ pfx) :
    linesOf (pfx ++ s) = (pfx ++ (linesOf s).headI) :: (linesOf s).tail := by
  induction pfx with
  | nil =>
    cases hh : linesOf s with
    | nil => exact absurd hh (linesOf_ne_nil s)
    | cons l ls => simp [hh]
  | cons c rest ih =>
    have hc : c ≠ '\n' := fun hcn => h (by simp [hcn])
    have hrest : '\n' ∉ rest := fun hm => h (List.mem_cons_of_mem _ hm)
    rw [List.cons_append, linesOf_cons_nonl c hc (rest ++ s), ih hrest]
    simp

/-- A newline-free text is a single line. -/
theorem linesOf_no_newline (s : Str) (h : '\n' ∉ s) : linesOf s = [s] := by
  have := linesOf_prefix_nonl s [] h
  simpa [linesOf] using this


theorem segJoin_append (a b : List Str) :
    segJoin (a ++ b) = segJoin a ++ segJoin b := by
  simp [segJoin]

theorem segJoin_cons (x : Str) (xs : List Str) :
    segJoin (x :: xs) = x ++ '\n' :: segJoin xs := by
  simp [segJoin]

/-- The lines of a newline-terminated piece list are the pieces' lines
followed by one final empty line. -/
theorem linesOf_segJoin (ps : List Str) :
    linesOf (segJoin ps) = (ps.map linesOf).flatten ++ [[]] := by
  induction ps with
  | nil => simp [segJoin, linesOf]
  | cons x xs ih => rw [segJoin_cons, linesOf_append_newline, ih]; simp



theorem exportBlock_eq_segJoin (entry : ConversationEntry) :
    exportBlock entry = segJoin (blockPieces entry) := by
  simp [exportBlock, segJoin, blockPieces, List.map_map, Function.comp_def]

theorem export_eq_segJoin (hs : List ConversationEntry) :
    (hs.map exportBlock).flatten = segJoin ((hs.map blockPieces).flatten) := by
  induction hs with
  | nil => rfl
  | cons e t ih =>
    simp only [List.map_cons, List.flatten_cons, segJoin_append, ih,
      exportBlock_eq_segJoin]

/-- The line starts with `Timestamp:` whenever it carries the full written
prefix `Timestamp: `. -/
theorem tsPred_full_prefix (x : Str) : tsPred (strL "Timestamp: " ++ x) = true := by
  have h : (strL "Timestamp: " : Str) = tsLinePrefix ++ strL " " := rfl
  rw [tsPred, h, List.append_assoc]
  exact List.isPrefixOf_iff_prefix.mpr (List.prefix_append _ _)

theorem tsPred_cons_ne (c : Char) (hc : c ≠ 'T') (y : Str) :
    tsPred (c :: y) = false := by
  rw [tsPred, show (tsLinePrefix : Str) = 'T' :: strL "imestamp:" from rfl]
  simp [List.isPrefixOf, beq_eq_false_iff_ne, Ne.symm hc]

theorem delimPred_cons_ne (c : Char) (hc : c ≠ '=') (y : Str) :
    delimPred (c :: y) = false := by
  rw [delimPred, show (delimLine : Str) = '=' :: List.replicate 79 '=' from rfl]
  simp [beq_eq_false_iff_ne, hc]

theorem tsPred_nil : tsPred [] = false := rfl

theorem delimPred_nil : delimPred [] = false := rfl


theorem offending_ts {l : Str} (h : offending l = false) : tsPred l = false := by
  rw [offending, Bool.or_eq_false_iff] at h
  exact h.1

theorem offending_delim {l : Str} (h : offending l = false) :
    delimPred l = false := by
  rw [offending, Bool.or_eq_false_iff] at h
  exact h.2


/-- A newline-free-prefixed piece whose first line is not counted and whose
remaining lines are not counted contributes zero. -/
theorem countP_piece_zero (p : Str → Bool) (pfx s : Str) (hn : '\n' ∉ pfx)
    (hhead : ∀ x, p (pfx ++ x) = false)
    (htail : ∀ l ∈ (linesOf s).tail, p l = false) :
    (linesOf (pfx ++ s)).countP p = 0 := by
  have hz : (linesOf s).tail.countP p = 0 :=
    List.countP_eq_zero.mpr (fun a ha => by simp [htail a ha])
  rw [linesOf_prefix_nonl pfx s hn, List.countP_cons]
  simp [hhead, hz]

/-- A newline-free-prefixed piece whose first line is counted and whose
remaining lines are not contributes exactly one. -/
theorem countP_piece_one (p : Str → Bool) (pfx s : Str) (hn : '\n' ∉ pfx)
    (hhead : ∀ x, p (pfx ++ x) = true)
    (htail : ∀ l ∈ (linesOf s).tail, p l = false) :
    (linesOf (pfx ++ s)).countP p = 1 := by
  have hz : (linesOf s).tail.countP p = 0 :=
    List.countP_eq_zero.mpr (fun a ha => by simp [htail a ha])
  rw [linesOf_prefix_nonl pfx s hn, List.countP_cons]
  simp [hhead, hz]

/-- The rendered source lines of an entry contribute no counted line. -/
theorem countP_sources_zero (p : Str → Bool) (sources : List SourceDoc)
    (hsafe : ∀ src ∈ sources, ∀ l ∈ (linesOf (sourceLine src)).tail,
      offending l = false)
    (hp : ∀ l, offending l = false → p l = false)
    (hhead : ∀ x, p (strL "- " ++ x) = false) :
    (((sources.map sourceLine).map linesOf).flatten).countP p = 0 := by
  induction sources with
  | nil => simp
  | cons src t ih =>
    simp only [List.map_cons, List.flatten_cons, List.countP_append]
    have e1 : sourceLine src = strL "- " ++ (src.content.take 200 ++ strL "...") := by
      rw [sourceLine, List.append_assoc]
    have hsrc := hsafe src (List.mem_cons_self src t)
    rw [e1, linesOf_prefix_nonl _ _ (by decide), List.tail_cons] at hsrc
    rw [e1, countP_piece_zero p _ _ (by decide) hhead
      (fun l hl => hp l (hsrc l hl))]
    rw [ih (fun src' hs' => hsafe src' (List.mem_cons_of_mem _ hs'))]

/-- One export block contains exactly one line starting `Timestamp:`. -/
theorem block_count_ts (entry : ConversationEntry) (h : SafeEntry entry) :
    (((blockPieces entry).map linesOf).flatten).countP tsPred = 1 := by
  simp only [blockPieces, List.map_append, List.flatten_append,
    List.countP_append, List.map_cons, List.map_nil, List.flatten_cons,
    List.flatten_nil, List.append_nil]
  rw [countP_piece_one tsPred _ _ (by decide) tsPred_full_prefix
        (fun l hl => offending_ts (h.tsSafe l hl)),
      countP_piece_zero tsPred (strL "Question: ") _ (by decide)
        (fun x => tsPred_cons_ne 'Q' (by decide) _)
        (fun l hl => offending_ts (h.questionSafe l hl)),
      countP_piece_zero tsPred (strL "Answer: ") _ (by decide)
        (fun x => tsPred_cons_ne 'A' (by decide) _)
        (fun l hl => offending_ts (h.answerSafe l hl)),
      countP_sources_zero tsPred entry.sources h.sourceSafe
        (fun l hl => offending_ts hl)
        (fun x => tsPred_cons_ne '-' (by decide) _)]
  rw [linesOf_no_newline (strL "Sources:") (by decide),
      linesOf_no_newline delimLine (by decide)]
  simp [linesOf, List.countP_cons, tsPred_nil]
  decide

/-- One export block contains exactly one delimiter line. -/
theorem block_count_delim (entry : ConversationEntry) (h : SafeEntry entry) :
    (((blockPieces entry).map linesOf).flatten).countP delimPred = 1 := by
  simp only [blockPieces, List.map_append, List.flatten_append,
    List.countP_append, List.map_cons, List.map_nil, List.flatten_cons,
    List.flatten_nil, List.append_nil]
  rw [countP_piece_zero delimPred (strL "Timestamp: ") _ (by decide)
        (fun x => delimPred_cons_ne 'T' (by decide) _)
        (fun l hl => offending_delim (h.tsSafe l hl)),
      countP_piece_zero delimPred (strL "Question: ") _ (by decide)
        (fun x => delimPred_cons_ne 'Q' (by decide) _)
        (fun l hl => offending_delim (h.questionSafe l hl)),
      countP_piece_zero delimPred (strL "Answer: ") _ (by decide)
        (fun x => delimPred_cons_ne 'A' (by decide) _)
        (fun l hl => offending_delim (h.answerSafe l hl)),
      countP_sources_zero delimPred entry.sources h.sourceSafe
        (fun l hl => offending_delim hl)
        (fun x => delimPred_cons_ne '-' (by decide) _)]
  rw [linesOf_no_newline (strL "Sources:") (by decide),
      linesOf_no_newline delimLine (by decide)]
  simp [linesOf, List.countP_cons, delimPred_nil]
  decide

/-- Per-block counts of one each sum to the number of entries. -/
theorem blocks_countP (p : Str → Bool) (hs : List ConversationEntry)
    (hblocks : ∀ e ∈ hs,
      (((blockPieces e).map linesOf).flatten).countP p = 1) :
    (((((hs.map blockPieces).flatten).map linesOf).flatten).countP p) =
      hs.length := by
  induction hs with
  | nil => simp
  | cons e t ih =>
    simp only [List.map_cons, List.flatten_cons, List.map_append,
      List.flatten_append, List.countP_append, List.length_cons]
    rw [hblocks e (List.mem_cons_self e t),
      ih (fun e' he' => hblocks e' (List.mem_cons_of_mem _ he'))]
    omega

/-- Counted lines of the whole export file, one per entry. -/
theorem file_countP (p : Str → Bool) (hs : List ConversationEntry)
    (hp0 : p [] = false)
    (hblocks : ∀ e ∈ hs,
      (((blockPieces e).map linesOf).flatten).countP p = 1) :
    (linesOf (segJoin ((hs.map blockPieces).flatten))).countP p = hs.length := by
  rw [linesOf_segJoin, List.countP_append, blocks_countP p hs hblocks]
  simp [List.countP_cons, hp0]

/-! ### Claim theorems -/

/-- C1 counterexample: the claim quantifies over every question string, but
on a freshly constructed chatbot — no documents ever ingested, no vector
store, no QA chain — the question "who created you" does not fail with
`IndexNotInitializedError`: `ask` returns the canned creator answer. -/
theorem C1_counterexample :
    (Chatbot.ask chainFail (strL "t0") cb0 (strL "who created you")).1 =
      .ok { timestamp := strL "t0", question := strL "who created you",
            answer := creatorAnswer, sources := [] } := rfl

/-- C1 (amended): for every question whose lower-cased text contains none of
the fixed creator keywords, `ask` on a chatbot whose QA chain has never been
created fails with `IndexNotInitializedError` — raised by `RAGEngine.query`
and propagated unmodified to the caller — and the chatbot state is
unchanged. -/
theorem C1_uninitialized_ask_fails (chain : ChainOracle) (now : Str)
    (cb : Chatbot) (q : Str)
    (hchain : cb.rag_engine.qa_chain = none)
    (hq : creator_keywords.any (fun k => containsSub k (lowerStr q)) = false) :
    Chatbot.ask chain now cb q = (.error IndexNotInitializedError, cb) ∧
    (RAGEngine.query chain cb.rag_engine q).1 =
      .error IndexNotInitializedError := by
  have hquery : RAGEngine.query chain cb.rag_engine q =
      (.error IndexNotInitializedError, cb.rag_engine) := by
    unfold RAGEngine.query
    rw [hchain]
    rfl
  refine ⟨?_, by rw [hquery]⟩
  unfold Chatbot.ask
  rw [if_neg (by simp [hq]), hquery]

/-- C1 witness: the amended theorem applied to the fresh default chatbot and
the question "What is AI?". -/
theorem C1_witness :
    Chatbot.ask chainFail (strL "t0") cb0 (strL "What is AI?") =
      (.error IndexNotInitializedError, cb0) ∧
    (RAGEngine.query chainFail cb0.rag_engine (strL "What is AI?")).1 =
      .error IndexNotInitializedError :=
  C1_uninitialized_ask_fails chainFail (strL "t0") cb0 (strL "What is AI?")
    rfl (by decide)

/-- C2: for every question whose lower-cased text contains one of the fixed
creator keywords, `ask` returns the canned creator answer with an empty
source list, appends exactly that turn to the conversation history, and the
whole call is independent of the QA-chain oracle — no retrieval or
generation call is made, the routing being decided before any retrieval. -/
theorem C2_creator_shortcut (chain : ChainOracle) (now : Str) (cb : Chatbot)
    (q : Str)
    (hq : creator_keywords.any (fun k => containsSub k (lowerStr q)) = true) :
    Chatbot.ask chain now cb q =
      (.ok { timestamp := now, question := q,
             answer := creatorAnswer, sources := [] },
       { cb with conversation_history := cb.conversation_history ++
           [{ timestamp := now, question := q,
              answer := creatorAnswer, sources := [] }] }) ∧
    (∀ chain2 : ChainOracle,
      Chatbot.ask chain2 now cb q = Chatbot.ask chain now cb q) := by
  have h1 : ∀ chain3 : ChainOracle, Chatbot.ask chain3 now cb q =
      (.ok { timestamp := now, question := q,
             answer := creatorAnswer, sources := [] },
       { cb with conversation_history := cb.conversation_history ++
           [{ timestamp := now, question := q,
              answer := creatorAnswer, sources := [] }] }) := by
    intro chain3
    unfold Chatbot.ask
    rw [if_pos hq]
  exact ⟨h1 chain, fun chain2 => (h1 chain2).trans (h1 chain).symm⟩

/-- C2 witness: the theorem applied to the mixed-case question
"WHO CREATED YOU?" on the fresh default chatbot. -/
theorem C2_witness :
    Chatbot.ask chainFail (strL "t0") cb0 (strL "WHO CREATED YOU?") =
      (.ok { timestamp := strL "t0", question := strL "WHO CREATED YOU?",
             answer := creatorAnswer, sources := [] },
       { cb0 with conversation_history :=
           [{ timestamp := strL "t0", question := strL "WHO CREATED YOU?",
              answer := creatorAnswer, sources := [] }] }) ∧
    (∀ chain2 : ChainOracle,
      Chatbot.ask chain2 (strL "t0") cb0 (strL "WHO CREATED YOU?") =
        Chatbot.ask chainFail (strL "t0") cb0 (strL "WHO CREATED YOU?")) :=
  C2_creator_shortcut chainFail (strL "t0") cb0 (strL "WHO CREATED YOU?")
    (by decide)

/-- C9: calling `create_vector_store` (the spec's `upsert`) with an empty
chunk sequence fails with `EmptyInputError` and returns the engine state
unchanged — the existing vector store is untouched. -/
theorem C9_empty_upsert (chroma : ChromaOracle) (re : RAGEngine) :
    RAGEngine.create_vector_store chroma re [] = (.error EmptyInputError, re) :=
  rfl

/-- C10: `ask` is atomic with respect to the conversation history — if the
call fails with any error, the history is unchanged; if it succeeds, the
history grows by exactly the returned turn. -/
theorem C10_ask_atomic (chain : ChainOracle) (now : Str) (cb : Chatbot)
    (q : Str) :
    (∀ e, (Chatbot.ask chain now cb q).1 = .error e →
      ((Chatbot.ask chain now cb q).2).conversation_history =
        cb.conversation_history) ∧
    (∀ entry, (Chatbot.ask chain now cb q).1 = .ok entry →
      ((Chatbot.ask chain now cb q).2).conversation_history =
        cb.conversation_history ++ [entry]) := by
  by_cases hcr : creator_keywords.any
      (fun k => containsSub k (lowerStr q)) = true
  · have hask : Chatbot.ask chain now cb q =
        (.ok { timestamp := now, question := q,
               answer := creatorAnswer, sources := [] },
         { cb with conversation_history := cb.conversation_history ++
             [{ timestamp := now, question := q,
                answer := creatorAnswer, sources := [] }] }) := by
      unfold Chatbot.ask
      rw [if_pos hcr]
    rw [hask]
    refine ⟨fun e he => by simp at he, fun entry he => ?_⟩
    simp only at he ⊢
    rw [Except.ok.inj he]
  · have hcr' : creator_keywords.any
        (fun k => containsSub k (lowerStr q)) = false := by
      simpa using hcr
    rcases hqy : RAGEngine.query chain cb.rag_engine q with ⟨r, re⟩
    cases r with
    | error e0 =>
      have hask : Chatbot.ask chain now cb q =
          (.error e0, { cb with rag_engine := re }) := by
        unfold Chatbot.ask
        rw [if_neg (by simp [hcr']), hqy]
      rw [hask]
      exact ⟨fun e he => rfl, fun entry he => by simp at he⟩
    | ok response =>
      have hask : Chatbot.ask chain now cb q =
          (.ok { timestamp := now, question := q,
                 answer := response.answer,
                 sources := response.source_documents },
           { cb with rag_engine := re,
                     conversation_history := cb.conversation_history ++
                       [{ timestamp := now, question := q,
                          answer := response.answer,
                          sources := response.source_documents }] }) := by
        unfold Chatbot.ask
        rw [if_neg (by simp [hcr']), hqy]
      rw [hask]
      refine ⟨fun e he => by simp at he, fun entry he => ?_⟩
      simp only at he ⊢
      rw [Except.ok.inj he]

/-- C10 witness: the error side on the fresh chatbot (query fails, history
unchanged) and the success side on the ready chatbot (history grows by the
returned turn). -/
theorem C10_witness :
    ((Chatbot.ask chainFail (strL "t0") cb0 (strL "What is AI?")).2).conversation_history
      = cb0.conversation_history ∧
    ((Chatbot.ask chainOk (strL "t0") cbReady (strL "What is AI?")).2).conversation_history
      = cbReady.conversation_history ++
        [{ timestamp := strL "t0", question := strL "What is AI?",
           answer := strL "ok", sources := [] }] :=
  ⟨(C10_ask_atomic chainFail (strL "t0") cb0 (strL "What is AI?")).1
      IndexNotInitializedError rfl,
   (C10_ask_atomic chainOk (strL "t0") cbReady (strL "What is AI?")).2
      { timestamp := strL "t0", question := strL "What is AI?",
        answer := strL "ok", sources := [] } rfl⟩

/-- C3: for every document whose text is shorter than `chunk_size`,
`process_text` returns exactly one chunk whose text is the whole
document. -/
theorem C3_short_document (dl : DataLoader) (text : Str)
    (h : text.length < dl.chunk_size) :
    DataLoader.process_text dl text =
      [{ page_content := text, metadata := [] }] := by
  unfold DataLoader.process_text splitDocuments
  simp only [List.map_cons, List.map_nil, List.flatten_cons, List.flatten_nil,
    List.append_nil]
  rw [splitText.eq_def]
  rw [if_pos (Nat.le_of_lt h)]
  rfl

/-- C3 witness: the two-character document `hi` against the default chunk
size of 1000. -/
theorem C3_witness :
    (strL "hi").length < dl0.chunk_size ∧
    DataLoader.process_text dl0 (strL "hi") =
      [{ page_content := strL "hi", metadata := [] }] :=
  ⟨by decide, C3_short_document dl0 (strL "hi") (by decide)⟩

/-- C4: constructing the chunker fails with `ConfigurationError` whenever
`chunk_overlap >= chunk_size` (both through `DataLoader.__init__` and
through `Chatbot.__init__`), and does not fail on those grounds when
`chunk_overlap < chunk_size`. -/
theorem C4_chunk_parameter_validation (chunk_size chunk_overlap : Nat) :
    (chunk_size ≤ chunk_overlap →
      DataLoader.init chunk_size chunk_overlap none =
        .error ConfigurationError ∧
      Chatbot.init (strL "gpt-3.5-turbo-0125") chunk_size chunk_overlap
          (strL "./data/chroma_db") = .error ConfigurationError) ∧
    (chunk_overlap < chunk_size →
      ∃ dl, DataLoader.init chunk_size chunk_overlap none = .ok dl) := by
  constructor
  · intro hle
    have h1 : DataLoader.init chunk_size chunk_overlap none =
        .error ConfigurationError := by
      unfold DataLoader.init
      rw [if_pos hle]
    refine ⟨h1, ?_⟩
    unfold Chatbot.init
    rw [h1]
  · intro hlt
    refine ⟨{ chunk_size, chunk_overlap,
              supported_extensions := defaultExtensions }, ?_⟩
    unfold DataLoader.init
    rw [if_neg (by omega)]
    rfl

/-- C4 witness: rejection at equal parameters (100, 100) and acceptance at
the defaults (1000, 200). -/
theorem C4_witness :
    DataLoader.init 100 100 none = .error ConfigurationError ∧
    ∃ dl, DataLoader.init 1000 200 none = .ok dl :=
  ⟨((C4_chunk_parameter_validation 100 100).1 (by decide)).1,
   (C4_chunk_parameter_validation 1000 200).2 (by decide)⟩

/-- C5: behaviour of the code on a path naming no existing file or
directory.  `DataLoader.load_document` and `DataLoader.load_directory` do
fail with `FileNotFoundError` (the spec's `NotFoundError`), but
`Chatbot.load_documents` — the entry point the claim and the repository's
own test `test_invalid_document_path` exercise — instead fails with
`ValueError("Invalid path: ...")`, a different exception: the test, which
expects `FileNotFoundError` from
`chatbot.load_documents("nonexistent_file.txt")`, fails on this code. -/
theorem C5_missing_path_behaviour :
    DataLoader.load_document fsEmpty readFail dl0 (strL "nonexistent_file.txt") =
      .error (NotFoundError (strL "nonexistent_file.txt")) ∧
    DataLoader.load_directory fsEmpty dirFail dl0 (strL "missing_dir") =
      .error (DirNotFoundError (strL "missing_dir")) ∧
    (Chatbot.load_documents fsEmpty readFail dirFail chromaFail cb0
        (strL "nonexistent_file.txt")).1 =
      .error (.valueError (strL "Invalid path: nonexistent_file.txt")) ∧
    (.valueError (strL "Invalid path: nonexistent_file.txt") : PyErr) ≠
      NotFoundError (strL "nonexistent_file.txt") :=
  ⟨rfl, rfl, rfl, by decide⟩

/-- C6: for every existing file whose lower-cased extension is not in the
default supported set `.pdf`/`.docx`/`.txt`, `load_document` fails with
`UnsupportedFormatError` whose message names the offending extension, the
failure propagating unchanged through `Chatbot.load_documents`. -/
theorem C6_unsupported_extension (fs : FS) (readDoc : ReadOracle)
    (dirLoad : DirOracle) (chroma : ChromaOracle) (cb : Chatbot) (path : Str)
    (hfile : fs.isFile path = true)
    (hsup : cb.data_loader.supported_extensions = defaultExtensions)
    (hns : defaultExtensions.contains (lowerStr (pathSuffix path)) = false) :
    DataLoader.load_document fs readDoc cb.data_loader path =
      .error (UnsupportedFormatError (lowerStr (pathSuffix path))) ∧
    (Chatbot.load_documents fs readDoc dirLoad chroma cb path).1 =
      .error (UnsupportedFormatError (lowerStr (pathSuffix path))) ∧
    UnsupportedFormatError (lowerStr (pathSuffix path)) =
      .valueError (strL "Unsupported file extension: " ++
        lowerStr (pathSuffix path)) := by
  have hpe : fs.pathExists path = true := by
    simp [FS.pathExists, hfile]
  have h1 : DataLoader.load_document fs readDoc cb.data_loader path =
      .error (UnsupportedFormatError (lowerStr (pathSuffix path))) := by
    unfold DataLoader.load_document
    rw [hpe, hsup]
    simp [hns]
    intro hmem
    exact absurd hmem (by simpa using hns)
  refine ⟨h1, ?_, rfl⟩
  unfold Chatbot.load_documents
  rw [hfile]
  simp only [if_true]
  rw [h1]

/-- C6 witness: the file `test.xyz` on a file system containing it, against
the fresh default chatbot. -/
theorem C6_witness :
    DataLoader.load_document fsXyz readFail cb0.data_loader (strL "test.xyz") =
      .error (UnsupportedFormatError (lowerStr (pathSuffix (strL "test.xyz")))) ∧
    (Chatbot.load_documents fsXyz readFail dirFail chromaFail cb0
        (strL "test.xyz")).1 =
      .error (UnsupportedFormatError (lowerStr (pathSuffix (strL "test.xyz")))) ∧
    UnsupportedFormatError (lowerStr (pathSuffix (strL "test.xyz"))) =
      .valueError (strL "Unsupported file extension: " ++
        lowerStr (pathSuffix (strL "test.xyz"))) :=
  C6_unsupported_extension fsXyz readFail dirFail chromaFail cb0
    (strL "test.xyz") (by decide) rfl (by decide)

/-- C7: `clear_conversation` empties the conversation history (so
`get_conversation_history` returns the empty sequence) while leaving the
vector store and QA chain untouched, so a subsequent `ask` over previously
ingested documents still succeeds; and no other operation mutates the
conversation history — `load_documents` and `process_text` (the remaining
state-mutating operations; `get_conversation_history` and
`export_conversation` are read-only by definition) leave it unchanged, the
only mutations being the appends performed by `ask` itself. -/
theorem C7_clear_conversation (cb : Chatbot) :
    (Chatbot.clear_conversation cb).conversation_history = [] ∧
    Chatbot.get_conversation_history (Chatbot.clear_conversation cb) = [] ∧
    (Chatbot.clear_conversation cb).rag_engine.vector_store =
      cb.rag_engine.vector_store ∧
    (Chatbot.clear_conversation cb).rag_engine.qa_chain =
      cb.rag_engine.qa_chain ∧
    (∀ chain : ChainOracle, ∀ now q : Str,
      cb.rag_engine.qa_chain = some () →
      (∀ mem, ∃ r, chain q mem = .ok r) →
      ∃ entry, (Chatbot.ask chain now (Chatbot.clear_conversation cb) q).1 =
        .ok entry) ∧
    (∀ fs readDoc dirLoad chroma path,
      ((Chatbot.load_documents fs readDoc dirLoad chroma cb path).2).conversation_history =
        cb.conversation_history) ∧
    (∀ chroma text,
      ((Chatbot.process_text chroma cb text).2).conversation_history =
        cb.conversation_history) := by
  refine ⟨rfl, rfl, rfl, rfl, ?_, ?_, ?_⟩
  · intro chain now q hqa hok
    by_cases hcr : creator_keywords.any
        (fun k => containsSub k (lowerStr q)) = true
    · exact ⟨_, by unfold Chatbot.ask; rw [if_pos hcr]⟩
    · have hcr' : creator_keywords.any
          (fun k => containsSub k (lowerStr q)) = false := by simpa using hcr
      rcases hok [] with ⟨⟨response, mem⟩, hr⟩
      have hqy : RAGEngine.query chain
          (Chatbot.clear_conversation cb).rag_engine q =
          (.ok { answer := response.answer,
                 source_documents := response.source_documents.map
                   (fun doc => { content := doc.page_content,
                                 metadata := doc.metadata }) },
           { (Chatbot.clear_conversation cb).rag_engine with memory := mem }) := by
        unfold RAGEngine.query
        have hqa' : (Chatbot.clear_conversation cb).rag_engine.qa_chain =
            some () := hqa
        rw [hqa']
        have hmem : (Chatbot.clear_conversation cb).rag_engine.memory = [] := rfl
        rw [hmem, hr]
        simp [hqa']
      refine ⟨{ timestamp := now, question := q,
                answer := response.answer,
                sources := response.source_documents.map
                  (fun doc => { content := doc.page_content,
                                metadata := doc.metadata }) }, ?_⟩
      unfold Chatbot.ask
      rw [if_neg (by simp [hcr']), hqy]
  · intro fs readDoc dirLoad chroma path
    unfold Chatbot.load_documents
    split
    · rfl
    · split
      · rfl
      · split <;> rfl
  · intro chroma text
    unfold Chatbot.process_text
    dsimp only
    split
    · rfl
    · split <;> rfl

/-- C7 witness: the theorem applied to the ready chatbot with the
always-succeeding chain oracle. -/
theorem C7_witness :
    (Chatbot.clear_conversation cbReady).conversation_history = [] ∧
    ∃ entry, (Chatbot.ask chainOk (strL "t1")
        (Chatbot.clear_conversation cbReady) (strL "What is AI?")).1 =
      .ok entry :=
  ⟨(C7_clear_conversation cbReady).1,
   (C7_clear_conversation cbReady).2.2.2.2.1 chainOk (strL "t1")
     (strL "What is AI?") rfl (fun _ => ⟨_, rfl⟩)⟩

/-- C8 counterexample: the claim quantifies over every conversation history,
but a single turn whose question embeds the line `Timestamp: fake` makes
the exported file contain two `Timestamp:` lines for a one-turn history. -/
theorem C8_counterexample :
    countTimestampLines (Chatbot.export_conversation cbBad) = 2 ∧
    cbBad.conversation_history.length = 1 := ⟨rfl, rfl⟩

/-- C8 (amended): for every conversation history of N turns in which no
turn's timestamp, question, answer or rendered source-preview line embeds a
further line that starts with `Timestamp:` or equals the 80-character `=`
delimiter, the exported text contains exactly N delimiter lines and exactly
N `Timestamp:` lines, and is the concatenation of the per-turn blocks in
history (chronological) order — each block holding the turn's timestamp,
question, answer, and a `- ⟨first 200 characters⟩...` preview per source. -/
theorem C8_export_counts (cb : Chatbot)
    (hsafe : ∀ e ∈ cb.conversation_history, SafeEntry e) :
    countTimestampLines (Chatbot.export_conversation cb) =
      cb.conversation_history.length ∧
    countDelimiterLines (Chatbot.export_conversation cb) =
      cb.conversation_history.length ∧
    Chatbot.export_conversation cb =
      (cb.conversation_history.map exportBlock).flatten := by
  refine ⟨?_, ?_, rfl⟩
  · show (linesOf ((cb.conversation_history.map exportBlock).flatten)).countP
      tsPred = cb.conversation_history.length
    rw [export_eq_segJoin]
    exact file_countP tsPred cb.conversation_history rfl
      (fun e he => block_count_ts e (hsafe e he))
  · show (linesOf ((cb.conversation_history.map exportBlock).flatten)).countP
      delimPred = cb.conversation_history.length
    rw [export_eq_segJoin]
    exact file_countP delimPred cb.conversation_history rfl
      (fun e he => block_count_delim e (hsafe e he))

/-- C8 witness: the amended theorem applied to a one-turn history whose
texts are all single-line. -/
theorem C8_witness :
    countTimestampLines (Chatbot.export_conversation cbGood) = 1 ∧
    countDelimiterLines (Chatbot.export_conversation cbGood) = 1 ∧
    Chatbot.export_conversation cbGood =
      (cbGood.conversation_history.map exportBlock).flatten :=
  C8_export_counts cbGood (by
    intro e he
    have he' : e = entryGood := by simpa [cbGood] using he
    subst he'
    exact ⟨by decide, by decide, by decide, by decide⟩)

end RB
